import Mathlib

/-!
# Synthetics monitor script resource: signing and state reconciliation

A shallow embedding of `newrelic/resource_newrelic_synthetics_monitor_script.go`
together with the Go standard-library routines it calls (`encoding/base64`,
`encoding/hex`, `crypto/sha256`, `crypto/hmac`), followed by the properties
established about it.

Conventions of the embedding:
* a Go `string` / `[]byte` is a list of bytes (`GoString`);
* `uint32` values are natural numbers reduced modulo `2 ^ 32`;
* diagnostic output (`fmt.Print*`, `log.Printf`) and `time.Sleep` have no effect on
  the values computed and are left out;
* the remote service is a client record threaded through an explicit world state
  which also logs every remote call made.
-/

namespace NewRelic

/-! ## Bytes and strings -/

/-- A byte: Go `byte`, a number below 256. -/
abbrev Byte := Fin 256

/-- A Go `string` (equally a `[]byte`): a finite sequence of bytes. -/
abbrev GoString := List Byte

/-- Go `byte(n)`: keep the low eight bits. -/
def byteOfNat (n : Nat) : Byte := ⟨n % 256, Nat.mod_lt n (by decide)⟩

/-- The bytes of an ASCII string literal of the source. -/
def ascii (s : String) : GoString := s.toList.map fun c => byteOfNat c.toNat

/-! ## `encoding/base64`, `StdEncoding` -/

namespace base64

/-- Go `encodeStd`: the standard alphabet. -/
def encodeStd : GoString :=
  ascii "ABCDEFGHIJKLMNOPQRSTUVWXYZabcdefghijklmnopqrstuvwxyz0123456789+/"

/-- Go `StdPadding`: the padding character `=`. -/
def padChar : Byte := 61

/-- Go `enc.encode[i]`. -/
def encode (i : Nat) : Byte := encodeStd.getD i 0

/-- Go `enc.decodeMap[c]`: the index of `c` in the alphabet, `0xff` for any other byte. -/
def decodeMap (c : Byte) : Nat :=
  if encodeStd.indexOf c < 64 then encodeStd.indexOf c else 0xff

/-- Go `(*Encoding).EncodeToString` for `StdEncoding`: three source bytes become four
characters; a final block of one or two bytes is padded with `=`. -/
def EncodeToString : GoString → GoString
  | [] => []
  | [b0] =>
      let val := b0.val <<< 16
      [encode (val >>> 18 &&& 0x3F), encode (val >>> 12 &&& 0x3F), padChar, padChar]
  | [b0, b1] =>
      let val := b0.val <<< 16 ||| b1.val <<< 8
      [encode (val >>> 18 &&& 0x3F), encode (val >>> 12 &&& 0x3F),
        encode (val >>> 6 &&& 0x3F), padChar]
  | b0 :: b1 :: b2 :: rest =>
      let val := b0.val <<< 16 ||| b1.val <<< 8 ||| b2.val
      encode (val >>> 18 &&& 0x3F) :: encode (val >>> 12 &&& 0x3F) ::
        encode (val >>> 6 &&& 0x3F) :: encode (val &&& 0x3F) :: EncodeToString rest

/-- The loop `for si < len(src) && (src[si] == '\n' || src[si] == '\r') { si++ }`. -/
def skipNewlines : GoString → GoString
  | [] => []
  | c :: rest => if c = 10 ∨ c = 13 then skipNewlines rest else c :: rest

/-- The tail of Go `decodeQuantum`: the sextets in `dbuf` (there are `dlen` of them)
are packed into a 24-bit value of which `dlen - 1` bytes are written. -/
def quantumBytes (dbuf : List Nat) : GoString :=
  let val := dbuf.getD 0 0 <<< 18 ||| dbuf.getD 1 0 <<< 12 ||| dbuf.getD 2 0 <<< 6 ||| dbuf.getD 3 0
  [byteOfNat (val >>> 16), byteOfNat (val >>> 8), byteOfNat (val >>> 0)].take (dbuf.length - 1)

/-- Go `decodeQuantum` for `StdEncoding` (padded, not strict). `dbuf` holds the sextets
read so far, so the loop index `j` is `dbuf.length`. The result is the decoded bytes
and the unread input; `none` stands for a `CorruptInputError` (a trailing-garbage
error is returned by Go together with the bytes decoded so far; it is an error all
the same). -/
def decodeQuantum (dbuf : List Nat) : GoString → Option (GoString × GoString)
  | [] => if dbuf.length = 0 then some ([], []) else none
  | c :: rest =>
      if decodeMap c ≠ 0xff then
        if dbuf.length + 1 = 4 then some (quantumBytes (dbuf ++ [decodeMap c]), rest)
        else decodeQuantum (dbuf ++ [decodeMap c]) rest
      else if c = 10 ∨ c = 13 then decodeQuantum dbuf rest
      else if c ≠ padChar then none
      else if dbuf.length < 2 then none
      else if dbuf.length = 2 then
        match skipNewlines rest with
        | [] => none
        | c2 :: rest2 =>
            if c2 ≠ padChar then none
            else
              match skipNewlines rest2 with
              | [] => some (quantumBytes dbuf, [])
              | _ :: _ => none
      else
        match skipNewlines rest with
        | [] => some (quantumBytes dbuf, [])
        | _ :: _ => none

/-- The loop of Go `(*Encoding).Decode`: quanta are decoded until the input is used up.
Every quantum read from a non-empty input consumes at least one byte, so `fuel`
equal to the length of the input always suffices. -/
def decodeLoop : Nat → GoString → Option GoString
  | _, [] => some []
  | 0, _ :: _ => none
  | fuel + 1, c :: rest =>
      match decodeQuantum [] (c :: rest) with
      | none => none
      | some (out, src) =>
          match decodeLoop fuel src with
          | none => none
          | some more => some (out ++ more)

/-- Go `(*Encoding).DecodeString` for `StdEncoding`; `none` is a decoding error. -/
def DecodeString (s : GoString) : Option GoString := decodeLoop s.length s

end base64

/-! ## `encoding/hex` -/

namespace hex

/-- Go `hextable`. -/
def hextable : GoString := ascii "0123456789abcdef"

/-- Go `hex.EncodeToString`: two lowercase hex digits per byte, high nibble first. -/
def EncodeToString : GoString → GoString
  | [] => []
  | v :: rest =>
      hextable.getD (v.val >>> 4) 0 :: hextable.getD (v.val &&& 0x0f) 0 :: EncodeToString rest

end hex

/-! ## `crypto/sha256` -/

namespace sha256

/-- Go `uint32(n)`. -/
def u32 (n : Nat) : Nat := n % 4294967296

/-- Go `bits.RotateLeft32(x, -k)` for a `uint32` `x` and `0 < k < 32`. -/
def rotr (x k : Nat) : Nat := u32 (x >>> k ||| x <<< (32 - k))

/-- Go `^x` on `uint32`. -/
def not32 (x : Nat) : Nat := 4294967295 - u32 x

/-- Go `_K`. -/
def K : List Nat :=
  [0x428a2f98, 0x71374491, 0xb5c0fbcf, 0xe9b5dba5, 0x3956c25b, 0x59f111f1, 0x923f82a4, 0xab1c5ed5,
   0xd807aa98, 0x12835b01, 0x243185be, 0x550c7dc3, 0x72be5d74, 0x80deb1fe, 0x9bdc06a7, 0xc19bf174,
   0xe49b69c1, 0xefbe4786, 0x0fc19dc6, 0x240ca1cc, 0x2de92c6f, 0x4a7484aa, 0x5cb0a9dc, 0x76f988da,
   0x983e5152, 0xa831c66d, 0xb00327c8, 0xbf597fc7, 0xc6e00bf3, 0xd5a79147, 0x06ca6351, 0x14292967,
   0x27b70a85, 0x2e1b2138, 0x4d2c6dfc, 0x53380d13, 0x650a7354, 0x766a0abb, 0x81c2c92e, 0x92722c85,
   0xa2bfe8a1, 0xa81a664b, 0xc24b8b70, 0xc76c51a3, 0xd192e819, 0xd6990624, 0xf40e3585, 0x106aa070,
   0x19a4c116, 0x1e376c08, 0x2748774c, 0x34b0bcb5, 0x391c0cb3, 0x4ed8aa4a, 0x5b9cca4f, 0x682e6ff3,
   0x748f82ee, 0x78a5636f, 0x84c87814, 0x8cc70208, 0x90befffa, 0xa4506ceb, 0xbef9a3f7, 0xc67178f2]

/-- The chaining value `h [8]uint32` of Go `digest`. -/
structure digest where
  h0 : Nat
  h1 : Nat
  h2 : Nat
  h3 : Nat
  h4 : Nat
  h5 : Nat
  h6 : Nat
  h7 : Nat
deriving DecidableEq, Repr

/-- Go `init0 .. init7`, as set by `Reset`. -/
def init : digest :=
  { h0 := 0x6a09e667, h1 := 0xbb67ae85, h2 := 0x3c6ef372, h3 := 0xa54ff53a,
    h4 := 0x510e527f, h5 := 0x9b05688c, h6 := 0x1f83d9ab, h7 := 0x5be0cd19 }

/-- The first loop of `blockGeneric`: `w[i]` for `i < 16`, big-endian words of the chunk. -/
def loadWords : Nat → GoString → List Nat
  | 0, _ => []
  | n + 1, p =>
      ((p.getD 0 0).val <<< 24 ||| (p.getD 1 0).val <<< 16 ||| (p.getD 2 0).val <<< 8
        ||| (p.getD 3 0).val) :: loadWords n (p.drop 4)

/-- The second loop of `blockGeneric`: `n` further entries of the message schedule are
appended to `w`. -/
def extendWords : Nat → List Nat → List Nat
  | 0, w => w
  | n + 1, w =>
      let i := w.length
      let v1 := w.getD (i - 2) 0
      let t1 := rotr v1 17 ^^^ rotr v1 19 ^^^ (v1 >>> 10)
      let v2 := w.getD (i - 15) 0
      let t2 := rotr v2 7 ^^^ rotr v2 18 ^^^ (v2 >>> 3)
      extendWords n (w ++ [u32 (t1 + w.getD (i - 7) 0 + t2 + w.getD (i - 16) 0)])

/-- One iteration of the third loop of `blockGeneric`, on the working variables
`a .. h` held in a `digest`. -/
def round (s : digest) (kw : Nat × Nat) : digest :=
  let t1 := s.h7 + (rotr s.h4 6 ^^^ rotr s.h4 11 ^^^ rotr s.h4 25)
    + ((s.h4 &&& s.h5) ^^^ (not32 s.h4 &&& s.h6)) + kw.1 + kw.2
  let t2 := (rotr s.h0 2 ^^^ rotr s.h0 13 ^^^ rotr s.h0 22)
    + ((s.h0 &&& s.h1) ^^^ (s.h0 &&& s.h2) ^^^ (s.h1 &&& s.h2))
  { h0 := u32 (t1 + t2), h1 := s.h0, h2 := s.h1, h3 := s.h2,
    h4 := u32 (s.h3 + t1), h5 := s.h4, h6 := s.h5, h7 := s.h6 }

/-- The body of the outer loop of `blockGeneric`: one 64-byte chunk is absorbed. -/
def blockStep (dig : digest) (p : GoString) : digest :=
  let w := extendWords 48 (loadWords 16 p)
  let s := (K.zip w).foldl round dig
  { h0 := u32 (dig.h0 + s.h0), h1 := u32 (dig.h1 + s.h1), h2 := u32 (dig.h2 + s.h2),
    h3 := u32 (dig.h3 + s.h3), h4 := u32 (dig.h4 + s.h4), h5 := u32 (dig.h5 + s.h5),
    h6 := u32 (dig.h6 + s.h6), h7 := u32 (dig.h7 + s.h7) }

/-- Go `blockGeneric`: `for len(p) >= chunk { ...; p = p[chunk:] }`, the loop counter
being the number of whole chunks left. -/
def blockGeneric : Nat → digest → GoString → digest
  | 0, dig, _ => dig
  | n + 1, dig, p =>
      if 64 ≤ p.length then blockGeneric n (blockStep dig (p.take 64)) (p.drop 64) else dig

/-- Go `binary.BigEndian.PutUint32`. -/
def putUint32 (v : Nat) : GoString :=
  [byteOfNat (v >>> 24), byteOfNat (v >>> 16), byteOfNat (v >>> 8), byteOfNat v]

/-- Go `binary.BigEndian.PutUint64`. -/
def putUint64 (v : Nat) : GoString :=
  [byteOfNat (v >>> 56), byteOfNat (v >>> 48), byteOfNat (v >>> 40), byteOfNat (v >>> 32),
   byteOfNat (v >>> 24), byteOfNat (v >>> 16), byteOfNat (v >>> 8), byteOfNat v]

/-- The padding written by Go `checkSum` after `len` bytes of data: a one bit, zero
bits up to 56 bytes modulo 64, then the length in bits as a 64-bit big-endian number. -/
def padding (len : Nat) : GoString :=
  let t := if len % 64 < 56 then 56 - len % 64 else 64 + 56 - len % 64
  (128 : Byte) :: List.replicate (t - 1) (0 : Byte) ++ putUint64 ((len <<< 3) % 2 ^ 64)

/-- The value of `Sum(nil)` on a fresh SHA-256 hash into which `data` has been
written: Go `Write` followed by `checkSum`. -/
def Sum (data : GoString) : GoString :=
  let p := data ++ padding data.length
  let d := blockGeneric (p.length / 64) init p
  putUint32 d.h0 ++ putUint32 d.h1 ++ putUint32 d.h2 ++ putUint32 d.h3 ++
    putUint32 d.h4 ++ putUint32 d.h5 ++ putUint32 d.h6 ++ putUint32 d.h7

/-- Go `BlockSize`. -/
def BlockSize : Nat := 64

end sha256

/-! ## `crypto/hmac` over SHA-256 -/

namespace hmac

/-- Go `hmac` built by `hmac.New(sha256.New, key)`: the two pads and the bytes written
into the inner hash so far. -/
structure HMAC where
  opad : GoString
  ipad : GoString
  inner : GoString
deriving DecidableEq, Repr

/-- `copy(pad, key)` into a zeroed block, then `pad[i] ^= x` for every `i`. -/
def xorPad (key : GoString) (x : Nat) : GoString :=
  (key ++ List.replicate (sha256.BlockSize - key.length) (0 : Byte)).map
    fun b => byteOfNat (b.val ^^^ x)

/-- Go `hmac.New(sha256.New, key)`: a key longer than a block is hashed first; the inner
hash starts with the inner pad. -/
def New (key : GoString) : HMAC :=
  let key := if sha256.BlockSize < key.length then sha256.Sum key else key
  { opad := xorPad key 0x5c, ipad := xorPad key 0x36, inner := xorPad key 0x36 }

/-- Go `(*hmac).Write`. -/
def Write (h : HMAC) (p : GoString) : HMAC := { h with inner := h.inner ++ p }

/-- Go `(*hmac).Sum(nil)`: the outer hash of the outer pad followed by the inner sum. -/
def Sum (h : HMAC) : GoString := sha256.Sum (h.opad ++ sha256.Sum h.inner)

end hmac

/-! ## Types of the client library and of the resource framework -/

/-- Go `synthetics.MonitorScriptLocation`. -/
structure MonitorScriptLocation where
  Name : GoString
  HMAC : GoString
deriving DecidableEq, Repr

/-- Go `synthetics.MonitorScript`. -/
structure MonitorScript where
  Text : GoString
  Locations : List MonitorScriptLocation
deriving DecidableEq, Repr

/-- An `error` returned by the client: Read tells `*errors.NotFound` apart from every
other error. -/
inductive Error where
  | NotFound (msg : GoString)
  | Other (msg : GoString)
deriving DecidableEq, Repr

/-- The type assertion `_, ok := err.(*errors.NotFound)`. -/
def Error.isNotFound : Error → Bool
  | .NotFound _ => true
  | .Other _ => false

/-- One element of the `locations` field, a map with the keys `name` and `hmac`; it is
also the element type of what `flattenLocations` returns. -/
structure LocationConfig where
  name : GoString
  hmac : GoString
deriving DecidableEq, Repr

/-- Go `schema.ResourceData` for this resource: the identity and the three fields of
the schema. An empty identity means the resource is absent. -/
structure ResourceData where
  id : GoString
  monitor_id : GoString
  text : GoString
  locations : List LocationConfig
deriving DecidableEq, Repr

/-- Go `d.SetId(id)`. -/
def ResourceData.SetId (d : ResourceData) (id : GoString) : ResourceData := { d with id := id }

/-- Go `d.Set("monitor_id", v)`. -/
def ResourceData.SetMonitorId (d : ResourceData) (v : GoString) : ResourceData :=
  { d with monitor_id := v }

/-- Go `d.Set("text", v)` for a string `v`; the source ignores its result. -/
def ResourceData.SetText (d : ResourceData) (v : GoString) : ResourceData := { d with text := v }

/-- Go `d.Set("locations", v)`. Whether the framework's writer accepts the value is
its own affair, given here by `chk`; a rejected write returns the error and is taken
to leave the field as it was. -/
def ResourceData.SetLocations (chk : List LocationConfig → Option Error) (d : ResourceData)
    (v : List LocationConfig) : Option Error × ResourceData :=
  match chk v with
  | some e => (some e, d)
  | none => (none, { d with locations := v })

/-- A remote call, as recorded in the world. -/
inductive Call where
  | UpdateMonitorScript (id : GoString) (script : MonitorScript)
  | GetMonitorScript (id : GoString)
deriving DecidableEq, Repr

/-- The part of the client the resource uses (`client.Synthetics`), over a remote
state `σ`: each call answers with a script or an error and moves the remote on. -/
structure Synthetics (σ : Type) where
  UpdateMonitorScript : σ → GoString → MonitorScript → Except Error MonitorScript × σ
  GetMonitorScript : σ → GoString → Except Error MonitorScript × σ

/-- The world outside the resource: the remote state and the log of calls made. -/
structure World (σ : Type) where
  remote : σ
  calls : List Call

/-- What a lifecycle function leaves behind: the `error` it returns (`none` is `nil`),
the resource data, and the world. -/
structure Result (σ : Type) where
  err : Option Error
  d : ResourceData
  world : World σ

/-- The call `client.Synthetics.UpdateMonitorScript(id, script)` made in world `w`. -/
def World.UpdateMonitorScript {σ : Type} (client : Synthetics σ) (w : World σ)
    (id : GoString) (script : MonitorScript) : Except Error MonitorScript × World σ :=
  ((client.UpdateMonitorScript w.remote id script).1,
    { remote := (client.UpdateMonitorScript w.remote id script).2,
      calls := w.calls ++ [Call.UpdateMonitorScript id script] })

/-- The call `client.Synthetics.GetMonitorScript(id)` made in world `w`. -/
def World.GetMonitorScript {σ : Type} (client : Synthetics σ) (w : World σ)
    (id : GoString) : Except Error MonitorScript × World σ :=
  ((client.GetMonitorScript w.remote id).1,
    { remote := (client.GetMonitorScript w.remote id).2,
      calls := w.calls ++ [Call.GetMonitorScript id] })

/-! ## `resource_newrelic_synthetics_monitor_script.go` -/

/-- Go `importSyntheticsMonitorScript`. -/
def importSyntheticsMonitorScript (d : ResourceData) : List ResourceData :=
  [d.SetMonitorId d.id]

/-- Go `expandLocations`. -/
def expandLocations (locations : List LocationConfig) (scriptText : GoString) :
    List MonitorScriptLocation :=
  locations.map fun loc =>
    let name := loc.name
    let secret := ascii "password123"
    let data := scriptText
    let h := hmac.Write (hmac.New secret) data
    { Name := name, HMAC := hex.EncodeToString (hmac.Sum h) }

/-- Go `buildSyntheticsMonitorScriptStruct`. -/
def buildSyntheticsMonitorScriptStruct (d : ResourceData) : MonitorScript :=
  let txt := d.text
  let locations := d.locations
  let scriptTextEncoded := base64.EncodeToString txt
  { Text := scriptTextEncoded, Locations := expandLocations locations scriptTextEncoded }

/-- Go `flattenLocations`. -/
def flattenLocations (locations : List MonitorScriptLocation) : List LocationConfig :=
  locations.map fun l => { name := l.Name, hmac := l.HMAC }

/-- Go `resourceNewRelicSyntheticsMonitorScriptRead`. -/
def resourceNewRelicSyntheticsMonitorScriptRead {σ : Type} (client : Synthetics σ)
    (chk : List LocationConfig → Option Error) (d : ResourceData) (w : World σ) : Result σ :=
  match World.GetMonitorScript client w d.id with
  | (.error err, w1) =>
      if err.isNotFound then { err := none, d := d.SetId [], world := w1 }
      else { err := some err, d := d, world := w1 }
  | (.ok script, w1) =>
      let d1 := d.SetText script.Text
      let locations := flattenLocations script.Locations
      match d1.SetLocations chk locations with
      | (some err, d2) => { err := some err, d := d2, world := w1 }
      | (none, d2) => { err := none, d := d2, world := w1 }

/-- Go `resourceNewRelicSyntheticsMonitorScriptCreate`. -/
def resourceNewRelicSyntheticsMonitorScriptCreate {σ : Type} (client : Synthetics σ)
    (chk : List LocationConfig → Option Error) (d : ResourceData) (w : World σ) : Result σ :=
  let id := d.monitor_id
  match World.UpdateMonitorScript client w id (buildSyntheticsMonitorScriptStruct d) with
  | (.error err, w1) => { err := some err, d := d, world := w1 }
  | (.ok _, w1) => resourceNewRelicSyntheticsMonitorScriptRead client chk (d.SetId id) w1

/-- Go `resourceNewRelicSyntheticsMonitorScriptUpdate`. -/
def resourceNewRelicSyntheticsMonitorScriptUpdate {σ : Type} (client : Synthetics σ)
    (chk : List LocationConfig → Option Error) (d : ResourceData) (w : World σ) : Result σ :=
  match World.UpdateMonitorScript client w d.id (buildSyntheticsMonitorScriptStruct d) with
  | (.error err, w1) => { err := some err, d := d, world := w1 }
  | (.ok _, w1) => resourceNewRelicSyntheticsMonitorScriptRead client chk (d.SetId d.id) w1

/-- Go `resourceNewRelicSyntheticsMonitorScriptDelete`. -/
def resourceNewRelicSyntheticsMonitorScriptDelete {σ : Type} (client : Synthetics σ)
    (d : ResourceData) (w : World σ) : Result σ :=
  let script : MonitorScript := { Text := ascii " ", Locations := [] }
  match World.UpdateMonitorScript client w d.id script with
  | (.error err, w1) => { err := some err, d := d, world := w1 }
  | (.ok _, w1) => { err := none, d := d, world := w1 }

/-! ## Reference notions used in the statements -/

/-- HMAC-SHA256 as RFC 2104 defines it: with `k` the key (hashed first when longer
than a block) padded with zeros to the block size,
`H((k xor opad) ++ H((k xor ipad) ++ msg))`, `opad` being bytes `0x5c` and `ipad`
bytes `0x36`. -/
def hmacSHA256 (key msg : GoString) : GoString :=
  let k := if 64 < key.length then sha256.Sum key else key
  let k0 := k ++ List.replicate (64 - k.length) (0 : Byte)
  sha256.Sum (k0.map (fun b => byteOfNat (b.val ^^^ 0x5c))
    ++ sha256.Sum (k0.map (fun b => byteOfNat (b.val ^^^ 0x36)) ++ msg))

/-- A lowercase hexadecimal digit: `0`-`9` or `a`-`f`. -/
def isHexDigit (c : Byte) : Prop := (48 ≤ c.val ∧ c.val ≤ 57) ∨ (97 ≤ c.val ∧ c.val ≤ 102)

instance (c : Byte) : Decidable (isHexDigit c) := by
  unfold isHexDigit; infer_instance

/-! ## Remote services used to instantiate the statements -/

/-- A remote that keeps the scripts it is sent, by monitor id, and reports an unknown
id as not found. -/
def storeClient : Synthetics (List (GoString × MonitorScript)) where
  UpdateMonitorScript := fun σ id script => (.ok script, (id, script) :: σ)
  GetMonitorScript := fun σ id =>
    match σ.lookup id with
    | some script => (.ok script, σ)
    | none => (.error (.NotFound (ascii "not found")), σ)

/-- A remote on which every call fails with the error `e`. -/
def failingClient (e : Error) : Synthetics Unit where
  UpdateMonitorScript := fun σ _ _ => (.error e, σ)
  GetMonitorScript := fun σ _ => (.error e, σ)

/-- A remote that accepts every script and afterwards knows no monitor. -/
def forgetfulClient : Synthetics Unit where
  UpdateMonitorScript := fun σ _ script => (.ok script, σ)
  GetMonitorScript := fun σ _ => (.error (.NotFound (ascii "not found")), σ)

/-- A framework writer that accepts every value for `locations`. -/
def acceptAll : List LocationConfig → Option Error := fun _ => none

/-- A framework writer that rejects every value for `locations`. -/
def rejectAll : List LocationConfig → Option Error :=
  fun _ => some (.Other (ascii "invalid locations"))

/-- The scenario of the specification: text `GET https://example.com`, one location
`us-east`, for a monitor `m1` not yet attached. -/
def exampleData : ResourceData :=
  { id := [], monitor_id := ascii "m1", text := ascii "GET https://example.com",
    locations := [{ name := ascii "us-east", hmac := ascii "user-supplied" }] }

/-- A resource with the one-byte text `a` and no locations, attached to monitor `m1`. -/
def smallData : ResourceData :=
  { id := ascii "m1", monitor_id := ascii "m1", text := ascii "a", locations := [] }

/-- A world in which `storeClient` holds, for monitor `m1`, the script assembled from
`smallData`, and no call has been made yet. -/
def smallWorld : World (List (GoString × MonitorScript)) :=
  { remote := [(ascii "m1", buildSyntheticsMonitorScriptStruct smallData)], calls := [] }

/-- A world of a stateless remote in which no call has been made yet. -/
def emptyWorld : World Unit := { remote := (), calls := [] }

/-- The declared fields of `smallData` before creation: no identity yet. -/
def absentData : ResourceData :=
  { id := [], monitor_id := ascii "m1", text := ascii "a", locations := [] }

/-! ## Arithmetic of the bit operations -/

/-- A disjunction of a multiple of `2 ^ k` with a number below `2 ^ k` is their sum. -/
theorem or_eq_add (k a b : Nat) (hb : b < 2 ^ k) : a * 2 ^ k ||| b = a * 2 ^ k + b := by
  rw [Nat.mul_comm a (2 ^ k)]
  exact (Nat.mul_add_lt_is_or hb a).symm

/-- Masking with `0x3F` keeps the value modulo 64. -/
theorem and_63 (x : Nat) : x &&& 0x3F = x % 64 :=
  Nat.and_pow_two_sub_one_eq_mod x 6

/-- Masking with `0x0f` keeps the value modulo 16. -/
theorem and_15 (x : Nat) : x &&& 0x0f = x % 16 :=
  Nat.and_pow_two_sub_one_eq_mod x 4

namespace base64

/-- The 24-bit value built from three bytes. -/
theorem val3 (b0 b1 b2 : Nat) (h1 : b1 < 256) (h2 : b2 < 256) :
    b0 <<< 16 ||| b1 <<< 8 ||| b2 = b0 * 65536 + b1 * 256 + b2 := by
  have e1 : b0 <<< 16 ||| b1 <<< 8 = b0 * 65536 + b1 * 256 := by
    rw [Nat.shiftLeft_eq, Nat.shiftLeft_eq]
    have := or_eq_add 16 b0 (b1 * 2 ^ 8) (by omega)
    simpa using this
  rw [e1]
  have := or_eq_add 8 (b0 * 256 + b1) b2 (by omega)
  have e2 : (b0 * 256 + b1) * 2 ^ 8 = b0 * 65536 + b1 * 256 := by ring
  rw [e2] at this
  exact this

/-- The 24-bit value rebuilt from four sextets. -/
theorem val4 (s0 s1 s2 s3 : Nat) (h1 : s1 < 64) (h2 : s2 < 64) (h3 : s3 < 64) :
    s0 <<< 18 ||| s1 <<< 12 ||| s2 <<< 6 ||| s3 = s0 * 262144 + s1 * 4096 + s2 * 64 + s3 := by
  have e1 : s0 <<< 18 ||| s1 <<< 12 = s0 * 262144 + s1 * 4096 := by
    rw [Nat.shiftLeft_eq, Nat.shiftLeft_eq]
    have := or_eq_add 18 s0 (s1 * 2 ^ 12) (by omega)
    simpa using this
  have e2 : s0 * 262144 + s1 * 4096 ||| s2 <<< 6 = s0 * 262144 + s1 * 4096 + s2 * 64 := by
    rw [Nat.shiftLeft_eq]
    have := or_eq_add 12 (s0 * 64 + s1) (s2 * 2 ^ 6) (by omega)
    have e : (s0 * 64 + s1) * 2 ^ 12 = s0 * 262144 + s1 * 4096 := by ring
    rw [e] at this
    simpa using this
  rw [e1, e2]
  have := or_eq_add 6 (s0 * 4096 + s1 * 64 + s2) s3 (by omega)
  have e : (s0 * 4096 + s1 * 64 + s2) * 2 ^ 6 = s0 * 262144 + s1 * 4096 + s2 * 64 := by ring
  rw [e] at this
  exact this

set_option maxRecDepth 100000 in
/-- The decode map inverts the alphabet on every sextet. -/
theorem decodeMap_encode : ∀ i, i < 64 → decodeMap (encode i) = i := by
  decide

/-- A sextet is not the invalid marker. -/
theorem decodeMap_encode_ne (i : Nat) (h : i < 64) : decodeMap (encode i) ≠ 0xff := by
  rw [decodeMap_encode i h]; omega

/-- The padding character is not in the alphabet, nor is it a newline. -/
theorem decodeMap_padChar : decodeMap padChar = 0xff ∧ padChar ≠ 10 ∧ padChar ≠ 13 := by
  decide

/-- A full quantum: four alphabet characters decode to the bytes of their sextets. -/
theorem decodeQuantum_four (s0 s1 s2 s3 : Nat) (h0 : s0 < 64) (h1 : s1 < 64) (h2 : s2 < 64)
    (h3 : s3 < 64) (rest : GoString) :
    decodeQuantum [] (encode s0 :: encode s1 :: encode s2 :: encode s3 :: rest)
      = some (quantumBytes [s0, s1, s2, s3], rest) := by
  have n0 : s0 ≠ 255 := by omega
  have n1 : s1 ≠ 255 := by omega
  have n2 : s2 ≠ 255 := by omega
  have n3 : s3 ≠ 255 := by omega
  simp [decodeQuantum, decodeMap_encode, h0, h1, h2, h3, n0, n1, n2, n3]

/-- A final quantum of three characters and one padding character. -/
theorem decodeQuantum_three (s0 s1 s2 : Nat) (h0 : s0 < 64) (h1 : s1 < 64) (h2 : s2 < 64) :
    decodeQuantum [] [encode s0, encode s1, encode s2, padChar]
      = some (quantumBytes [s0, s1, s2], []) := by
  have n0 : s0 ≠ 255 := by omega
  have n1 : s1 ≠ 255 := by omega
  have n2 : s2 ≠ 255 := by omega
  simp [decodeQuantum, decodeMap_encode, h0, h1, h2, n0, n1, n2, decodeMap_padChar,
    skipNewlines]

/-- A final quantum of two characters and two padding characters. -/
theorem decodeQuantum_two (s0 s1 : Nat) (h0 : s0 < 64) (h1 : s1 < 64) :
    decodeQuantum [] [encode s0, encode s1, padChar, padChar]
      = some (quantumBytes [s0, s1], []) := by
  have n0 : s0 ≠ 255 := by omega
  have n1 : s1 ≠ 255 := by omega
  simp [decodeQuantum, decodeMap_encode, h0, h1, n0, n1, decodeMap_padChar, skipNewlines]

/-- The sextets of three bytes pack back into those bytes. -/
theorem quantumBytes_three (b0 b1 b2 : Byte) :
    quantumBytes
      [(b0.val <<< 16 ||| b1.val <<< 8 ||| b2.val) >>> 18 &&& 0x3F,
       (b0.val <<< 16 ||| b1.val <<< 8 ||| b2.val) >>> 12 &&& 0x3F,
       (b0.val <<< 16 ||| b1.val <<< 8 ||| b2.val) >>> 6 &&& 0x3F,
       (b0.val <<< 16 ||| b1.val <<< 8 ||| b2.val) &&& 0x3F] = [b0, b1, b2] := by
  have h0 := b0.isLt
  have h1 := b1.isLt
  have h2 := b2.isLt
  rw [val3 _ _ _ h1 h2]
  simp only [and_63, Nat.shiftRight_eq_div_pow, quantumBytes, List.getD_cons_zero,
    List.getD_cons_succ, List.length_cons, List.length_nil]
  rw [val4 _ _ _ _ (by omega) (by omega) (by omega)]
  simp only [byteOfNat, List.take, Nat.reduceAdd, Nat.reduceSub, Nat.reducePow, Nat.div_one]
  congr 1
  · apply Fin.ext; simp only; omega
  · congr 1
    · apply Fin.ext; simp only; omega
    · congr 1
      apply Fin.ext; simp only; omega

/-- The sextets of a final block of two bytes pack back into those bytes. -/
theorem quantumBytes_two (b0 b1 : Byte) :
    quantumBytes
      [(b0.val <<< 16 ||| b1.val <<< 8) >>> 18 &&& 0x3F,
       (b0.val <<< 16 ||| b1.val <<< 8) >>> 12 &&& 0x3F,
       (b0.val <<< 16 ||| b1.val <<< 8) >>> 6 &&& 0x3F] = [b0, b1] := by
  have h0 := b0.isLt
  have h1 := b1.isLt
  have e := val3 b0.val b1.val 0 h1 (by omega)
  rw [Nat.or_zero, Nat.add_zero] at e
  rw [e]
  simp only [and_63, Nat.shiftRight_eq_div_pow, quantumBytes, List.getD_cons_zero,
    List.getD_cons_succ, List.length_cons, List.length_nil, List.getD_nil]
  rw [val4 _ _ _ _ (by omega) (by omega) (by omega)]
  simp only [byteOfNat, List.take, Nat.reduceAdd, Nat.reduceSub, Nat.reducePow, Nat.div_one]
  congr 1
  · apply Fin.ext; simp only; omega
  · congr 1
    apply Fin.ext; simp only; omega

/-- The sextets of a final block of one byte pack back into that byte. -/
theorem quantumBytes_one (b0 : Byte) :
    quantumBytes [(b0.val <<< 16) >>> 18 &&& 0x3F, (b0.val <<< 16) >>> 12 &&& 0x3F] = [b0] := by
  have h0 := b0.isLt
  have e : b0.val <<< 16 = b0.val * 65536 := by rw [Nat.shiftLeft_eq]
  rw [e]
  simp only [and_63, Nat.shiftRight_eq_div_pow, quantumBytes,
    List.getD_cons_zero, List.getD_cons_succ, List.length_cons, List.length_nil, List.getD_nil]
  rw [val4 _ _ _ _ (by omega) (by omega) (by omega)]
  simp only [byteOfNat, List.take, Nat.reduceAdd, Nat.reduceSub, Nat.reducePow, Nat.div_one]
  congr 1
  apply Fin.ext; simp only; omega

/-- Decoding what the encoder wrote gives the source back, for any `fuel` that is at
least the number of source bytes. -/
theorem decodeLoop_EncodeToString :
    ∀ (n : Nat) (b : GoString), b.length ≤ n → ∀ fuel, b.length ≤ fuel →
      decodeLoop fuel (EncodeToString b) = some b := by
  intro n
  induction n using Nat.strong_induction_on with
  | _ n ih =>
    intro b hn fuel hf
    match b, hn, hf with
    | [], _, _ => simp [EncodeToString, decodeLoop]
    | [b0], _, hf =>
      obtain ⟨f, rfl⟩ : ∃ f, fuel = f + 1 := ⟨fuel - 1, by simp at hf; omega⟩
      simp only [EncodeToString, decodeLoop]
      rw [decodeQuantum_two _ _ (by rw [and_63]; omega) (by rw [and_63]; omega)]
      simp [decodeLoop, quantumBytes_one]
    | [b0, b1], _, hf =>
      obtain ⟨f, rfl⟩ : ∃ f, fuel = f + 1 := ⟨fuel - 1, by simp at hf; omega⟩
      simp only [EncodeToString, decodeLoop]
      rw [decodeQuantum_three _ _ _ (by rw [and_63]; omega) (by rw [and_63]; omega)
        (by rw [and_63]; omega)]
      simp [decodeLoop, quantumBytes_two]
    | b0 :: b1 :: b2 :: rest, hn, hf =>
      obtain ⟨f, rfl⟩ : ∃ f, fuel = f + 1 := ⟨fuel - 1, by simp at hf; omega⟩
      simp only [List.length_cons] at hn hf
      simp only [EncodeToString, decodeLoop]
      rw [decodeQuantum_four _ _ _ _ (by rw [and_63]; omega) (by rw [and_63]; omega)
        (by rw [and_63]; omega) (by rw [and_63]; omega)]
      simp only [quantumBytes_three]
      rw [ih rest.length (by omega) rest (Nat.le_refl _) f (by omega)]
      simp

/-- The encoded text has four characters for every block of at most three source bytes. -/
theorem length_EncodeToString_aux :
    ∀ (n : Nat) (b : GoString), b.length ≤ n →
      (EncodeToString b).length = 4 * ((b.length + 2) / 3) := by
  intro n
  induction n using Nat.strong_induction_on with
  | _ n ih =>
    intro b hn
    match b, hn with
    | [], _ => simp [EncodeToString]
    | [b0], _ => simp [EncodeToString]
    | [b0, b1], _ => simp [EncodeToString]
    | b0 :: b1 :: b2 :: rest, hn =>
      simp only [List.length_cons] at hn
      have := ih rest.length (by omega) rest (Nat.le_refl _)
      simp only [EncodeToString, List.length_cons]
      omega

/-- The length of the encoded text. -/
theorem length_EncodeToString (b : GoString) :
    (EncodeToString b).length = 4 * ((b.length + 2) / 3) :=
  length_EncodeToString_aux b.length b (Nat.le_refl _)

/-- The standard decoder succeeds on every encoded text and returns its source. -/
theorem DecodeString_EncodeToString (b : GoString) :
    DecodeString (EncodeToString b) = some b :=
  decodeLoop_EncodeToString b.length b (Nat.le_refl _) _
    (by rw [length_EncodeToString]; omega)

/-- The encoder is injective. -/
theorem EncodeToString_injective (b1 b2 : GoString)
    (h : EncodeToString b1 = EncodeToString b2) : b1 = b2 := by
  have h1 := DecodeString_EncodeToString b1
  rw [h, DecodeString_EncodeToString b2] at h1
  exact (Option.some.inj h1).symm

/-- Only the empty text is its own encoding. -/
theorem EncodeToString_eq_self (b : GoString) : EncodeToString b = b ↔ b = [] := by
  constructor
  · intro h
    have hl := length_EncodeToString b
    rw [h] at hl
    exact List.length_eq_zero.mp (by omega)
  · rintro rfl
    rfl

end base64

namespace hex

/-- Every entry of the hex table is a lowercase hexadecimal digit. -/
theorem hextable_isHexDigit : ∀ i, i < 16 → isHexDigit (hextable.getD i 0) := by
  decide

/-- Two characters are written per byte. -/
theorem length_hexEncode (s : GoString) : (EncodeToString s).length = 2 * s.length := by
  induction s with
  | nil => rfl
  | cons v rest ih => simp only [EncodeToString, List.length_cons, ih]; omega

/-- Every character written is a lowercase hexadecimal digit. -/
theorem isHexDigit_of_mem_EncodeToString (s : GoString) :
    ∀ c ∈ EncodeToString s, isHexDigit c := by
  induction s with
  | nil => intro c hc; simp [EncodeToString] at hc
  | cons v rest ih =>
    intro c hc
    have hv := v.isLt
    simp only [EncodeToString, List.mem_cons] at hc
    rcases hc with rfl | rfl | hc
    · apply hextable_isHexDigit
      rw [Nat.shiftRight_eq_div_pow]; omega
    · apply hextable_isHexDigit
      rw [and_15]; omega
    · exact ih c hc

end hex

namespace sha256

/-- A SHA-256 sum has 32 bytes. -/
theorem length_sha256Sum (data : GoString) : (Sum data).length = 32 := by
  simp [Sum, putUint32]

end sha256

namespace hmac

/-- The HMAC construction: the hash of the outer pad followed by the hash of the inner
pad followed by the message. -/
theorem Sum_Write_New (key p : GoString) :
    Sum (Write (New key) p) =
      sha256.Sum (xorPad (if sha256.BlockSize < key.length then sha256.Sum key else key) 0x5c
        ++ sha256.Sum
          (xorPad (if sha256.BlockSize < key.length then sha256.Sum key else key) 0x36 ++ p)) := by
  rfl

/-- An HMAC-SHA256 tag has 32 bytes. -/
theorem length_hmacSum (h : HMAC) : (Sum h).length = 32 :=
  sha256.length_sha256Sum _

end hmac

/-! ## Facts about the resource functions -/

/-- Every location built by `expandLocations` carries the tag of the script text. -/
theorem expandLocations_eq (L : List LocationConfig) (s : GoString) :
    expandLocations L s =
      L.map fun l => { Name := l.name, HMAC := hex.EncodeToString (hmacSHA256 (ascii "password123") s) } := by
  rfl

/-- The tag has 64 characters. -/
theorem length_tag (key s : GoString) : (hex.EncodeToString (hmacSHA256 key s)).length = 64 := by
  rw [hex.length_hexEncode]
  unfold hmacSHA256
  simp only [sha256.length_sha256Sum]

/-- The outcome of `SetLocations` keeps the identity, monitor id and text. -/
theorem SetLocations_fields (chk : List LocationConfig → Option Error) (d : ResourceData)
    (v : List LocationConfig) :
    (d.SetLocations chk v).2.id = d.id ∧ (d.SetLocations chk v).2.monitor_id = d.monitor_id ∧
      (d.SetLocations chk v).2.text = d.text := by
  unfold ResourceData.SetLocations
  cases chk v <;> simp

/-- `SetLocations` returns the writer's verdict. -/
theorem SetLocations_err (chk : List LocationConfig → Option Error) (d : ResourceData)
    (v : List LocationConfig) : (d.SetLocations chk v).1 = chk v := by
  unfold ResourceData.SetLocations
  cases chk v <;> simp

/-- Read when the remote answers with a script. -/
theorem Read_ok {σ : Type} (client : Synthetics σ) (chk : List LocationConfig → Option Error)
    (d : ResourceData) (w : World σ) (script : MonitorScript)
    (h : (client.GetMonitorScript w.remote d.id).1 = .ok script) :
    resourceNewRelicSyntheticsMonitorScriptRead client chk d w =
      { err := chk (flattenLocations script.Locations),
        d := ((d.SetText script.Text).SetLocations chk (flattenLocations script.Locations)).2,
        world := (World.GetMonitorScript client w d.id).2 } := by
  unfold resourceNewRelicSyntheticsMonitorScriptRead World.GetMonitorScript
  simp only [h]
  unfold ResourceData.SetLocations
  cases chk (flattenLocations script.Locations) <;> simp

/-- Read when the remote answers with an error. -/
theorem Read_error {σ : Type} (client : Synthetics σ) (chk : List LocationConfig → Option Error)
    (d : ResourceData) (w : World σ) (e : Error)
    (h : (client.GetMonitorScript w.remote d.id).1 = .error e) :
    resourceNewRelicSyntheticsMonitorScriptRead client chk d w =
      if e.isNotFound then
        { err := none, d := d.SetId [], world := (World.GetMonitorScript client w d.id).2 }
      else { err := some e, d := d, world := (World.GetMonitorScript client w d.id).2 } := by
  unfold resourceNewRelicSyntheticsMonitorScriptRead World.GetMonitorScript
  simp only [h]

/-- Read makes exactly one remote call, a `GetMonitorScript` under the identity. -/
theorem Read_calls {σ : Type} (client : Synthetics σ) (chk : List LocationConfig → Option Error)
    (d : ResourceData) (w : World σ) :
    (resourceNewRelicSyntheticsMonitorScriptRead client chk d w).world.calls =
      w.calls ++ [Call.GetMonitorScript d.id] := by
  cases h : (client.GetMonitorScript w.remote d.id).1 with
  | error e =>
    rw [Read_error client chk d w e h]
    split <;> rfl
  | ok script =>
    rw [Read_ok client chk d w script h]
    rfl

/-- Create when the remote rejects the script. -/
theorem Create_error {σ : Type} (client : Synthetics σ)
    (chk : List LocationConfig → Option Error) (d : ResourceData) (w : World σ) (e : Error)
    (h : (client.UpdateMonitorScript w.remote d.monitor_id
      (buildSyntheticsMonitorScriptStruct d)).1 = .error e) :
    resourceNewRelicSyntheticsMonitorScriptCreate client chk d w =
      { err := some e, d := d,
        world := (World.UpdateMonitorScript client w d.monitor_id
          (buildSyntheticsMonitorScriptStruct d)).2 } := by
  unfold resourceNewRelicSyntheticsMonitorScriptCreate World.UpdateMonitorScript
  simp only [h]

/-- Create when the remote accepts the script. -/
theorem Create_ok {σ : Type} (client : Synthetics σ)
    (chk : List LocationConfig → Option Error) (d : ResourceData) (w : World σ)
    (s : MonitorScript)
    (h : (client.UpdateMonitorScript w.remote d.monitor_id
      (buildSyntheticsMonitorScriptStruct d)).1 = .ok s) :
    resourceNewRelicSyntheticsMonitorScriptCreate client chk d w =
      resourceNewRelicSyntheticsMonitorScriptRead client chk (d.SetId d.monitor_id)
        (World.UpdateMonitorScript client w d.monitor_id
          (buildSyntheticsMonitorScriptStruct d)).2 := by
  unfold resourceNewRelicSyntheticsMonitorScriptCreate World.UpdateMonitorScript
  simp only [h]

/-- Update when the remote rejects the script. -/
theorem Update_error {σ : Type} (client : Synthetics σ)
    (chk : List LocationConfig → Option Error) (d : ResourceData) (w : World σ) (e : Error)
    (h : (client.UpdateMonitorScript w.remote d.id
      (buildSyntheticsMonitorScriptStruct d)).1 = .error e) :
    resourceNewRelicSyntheticsMonitorScriptUpdate client chk d w =
      { err := some e, d := d,
        world := (World.UpdateMonitorScript client w d.id
          (buildSyntheticsMonitorScriptStruct d)).2 } := by
  unfold resourceNewRelicSyntheticsMonitorScriptUpdate World.UpdateMonitorScript
  simp only [h]

/-- Delete when the remote rejects the blank script. -/
theorem Delete_error {σ : Type} (client : Synthetics σ) (d : ResourceData) (w : World σ)
    (e : Error)
    (h : (client.UpdateMonitorScript w.remote d.id
      { Text := ascii " ", Locations := [] }).1 = .error e) :
    resourceNewRelicSyntheticsMonitorScriptDelete client d w =
      { err := some e, d := d,
        world := (World.UpdateMonitorScript client w d.id
          { Text := ascii " ", Locations := [] }).2 } := by
  unfold resourceNewRelicSyntheticsMonitorScriptDelete World.UpdateMonitorScript
  simp only [h]

/-- Delete when the remote accepts the blank script. -/
theorem Delete_ok {σ : Type} (client : Synthetics σ) (d : ResourceData) (w : World σ)
    (s : MonitorScript)
    (h : (client.UpdateMonitorScript w.remote d.id
      { Text := ascii " ", Locations := [] }).1 = .ok s) :
    resourceNewRelicSyntheticsMonitorScriptDelete client d w =
      { err := none, d := d,
        world := (World.UpdateMonitorScript client w d.id
          { Text := ascii " ", Locations := [] }).2 } := by
  unfold resourceNewRelicSyntheticsMonitorScriptDelete World.UpdateMonitorScript
  simp only [h]

/-- The log after an `UpdateMonitorScript` call. -/
theorem UpdateMonitorScript_calls {σ : Type} (client : Synthetics σ) (w : World σ)
    (id : GoString) (script : MonitorScript) :
    (World.UpdateMonitorScript client w id script).2.calls
      = w.calls ++ [Call.UpdateMonitorScript id script] :=
  rfl

/-- The identity Read leaves: empty when the remote reports the id as not found, the
identity it was called with otherwise. -/
theorem Read_id {σ : Type} (client : Synthetics σ) (chk : List LocationConfig → Option Error)
    (d : ResourceData) (w : World σ) :
    (resourceNewRelicSyntheticsMonitorScriptRead client chk d w).d.id =
      match (client.GetMonitorScript w.remote d.id).1 with
      | .error e => if e.isNotFound then [] else d.id
      | .ok _ => d.id := by
  cases h : (client.GetMonitorScript w.remote d.id).1 with
  | error e =>
    rw [Read_error client chk d w e h]
    by_cases hn : e.isNotFound = true <;> simp [hn, ResourceData.SetId]
  | ok script =>
    rw [Read_ok client chk d w script h]
    exact (SetLocations_fields chk _ _).1

/-! ## Test vectors for the library routines -/

set_option maxRecDepth 1000000 in
/-- The SHA-256 sum of `abc` (FIPS 180-4). -/
theorem sha256_abc :
    hex.EncodeToString (sha256.Sum (ascii "abc"))
      = ascii "ba7816bf8f01cfea414140de5dae2223b00361a396177a9cb410ff61f20015ad" := by
  decide!

set_option maxRecDepth 1000000 in
/-- The script built in the example scenario: its text and the tag of its location. -/
theorem build_exampleData :
    buildSyntheticsMonitorScriptStruct exampleData =
      ⟨ascii "R0VUIGh0dHBzOi8vZXhhbXBsZS5jb20=", [⟨ascii "us-east",
        ascii "477df7134db1d80fe0b6baf3fc474b3ac46159ac6450ada8c20f263ac06f0a99"⟩]⟩ := by
  decide!

set_option maxRecDepth 1000000 in
/-- The decoder rejects malformed input: missing padding, padding after a full
quantum, a character outside the alphabet; and it skips newlines. -/
theorem DecodeString_examples :
    base64.DecodeString (ascii "YQ=") = none ∧
    base64.DecodeString (ascii "YWJj=") = none ∧
    base64.DecodeString (ascii "Y*==") = none ∧
    base64.DecodeString (ascii "YW\nJj") = some (ascii "abc") := by
  decide!

/-! ## The claims -/

/-- C1, evaluated at a failing input: the declared text is `a`, the remote returns
exactly the script that `buildSyntheticsMonitorScriptStruct` assembled from it, and
Read stores `YQ==` in the `text` field, which the schema describes as the plaintext of
the script; the standard decoder would recover `a` from what is stored, but Read does
not decode. -/
theorem read_after_build_text_at_failing_input :
    (storeClient.GetMonitorScript smallWorld.remote smallData.id).1
      = .ok (buildSyntheticsMonitorScriptStruct smallData) ∧
    smallData.text = ascii "a" ∧
    (resourceNewRelicSyntheticsMonitorScriptRead storeClient acceptAll smallData
        smallWorld).err = none ∧
    (resourceNewRelicSyntheticsMonitorScriptRead storeClient acceptAll smallData
        smallWorld).d.text = ascii "YQ==" ∧
    (resourceNewRelicSyntheticsMonitorScriptRead storeClient acceptAll smallData
        smallWorld).d.text ≠ smallData.text ∧
    base64.DecodeString (resourceNewRelicSyntheticsMonitorScriptRead storeClient acceptAll
        smallData smallWorld).d.text = some smallData.text := by
  refine ⟨rfl, by decide, by decide, by decide, by decide, by decide⟩

/-- C2: every location of the script returned by `buildSyntheticsMonitorScriptStruct`
carries the lowercase hex encoding of HMAC-SHA256, keyed with the bytes of
`password123`, of the bytes of that script's own `Text`, and `Text` is the standard
base64 encoding of the declared text: the tag is computed over the encoded body that
the script carries, which is not the raw text whenever that text is not empty. -/
theorem build_tag_over_encoded_text (d : ResourceData) (loc : MonitorScriptLocation)
    (h : loc ∈ (buildSyntheticsMonitorScriptStruct d).Locations) :
    loc.HMAC = hex.EncodeToString
        (hmacSHA256 (ascii "password123") (buildSyntheticsMonitorScriptStruct d).Text) ∧
      (buildSyntheticsMonitorScriptStruct d).Text = base64.EncodeToString d.text ∧
      (d.text ≠ [] → (buildSyntheticsMonitorScriptStruct d).Text ≠ d.text) := by
  refine ⟨?_, rfl, fun hne heq => hne ((base64.EncodeToString_eq_self d.text).mp heq)⟩
  simp only [buildSyntheticsMonitorScriptStruct, expandLocations_eq, List.mem_map] at h
  obtain ⟨l, _, rfl⟩ := h
  rfl

/-- Witness for C2: the location of the example scenario. -/
theorem build_tag_over_encoded_text_witness :
    (⟨ascii "us-east", hex.EncodeToString (hmacSHA256 (ascii "password123")
        (base64.EncodeToString exampleData.text))⟩ : MonitorScriptLocation)
      ∈ (buildSyntheticsMonitorScriptStruct exampleData).Locations ∧
    exampleData.text ≠ [] ∧
    (buildSyntheticsMonitorScriptStruct exampleData).Text ≠ exampleData.text :=
  ⟨List.Mem.head _, by decide,
    (build_tag_over_encoded_text exampleData _ (List.Mem.head _)).2.2 (by decide)⟩

/-- C3: for a location list of any length, all locations built by `expandLocations`
carry the same tag, the tags are that of the script text alone, and replacing the
names (indeed the whole entries) by others leaves every tag unchanged. -/
theorem expandLocations_tag_name_independent (L : List LocationConfig) (scriptText : GoString) :
    (∀ x ∈ expandLocations L scriptText, ∀ y ∈ expandLocations L scriptText, x.HMAC = y.HMAC) ∧
    (expandLocations L scriptText).map (fun l => l.HMAC) =
      List.replicate L.length (hex.EncodeToString (hmacSHA256 (ascii "password123") scriptText)) ∧
    (∀ L2 : List LocationConfig, L2.length = L.length →
      (expandLocations L2 scriptText).map (fun l => l.HMAC)
        = (expandLocations L scriptText).map (fun l => l.HMAC)) := by
  have key : ∀ M : List LocationConfig, (expandLocations M scriptText).map (fun l => l.HMAC) =
      List.replicate M.length
        (hex.EncodeToString (hmacSHA256 (ascii "password123") scriptText)) := by
    intro M
    rw [expandLocations_eq, List.map_map]
    induction M with
    | nil => rfl
    | cons a M ih => simp only [List.map_cons, List.length_cons, List.replicate_succ, ih]; rfl
  refine ⟨?_, key L, ?_⟩
  · intro x hx y hy
    rw [expandLocations_eq, List.mem_map] at hx hy
    obtain ⟨_, _, rfl⟩ := hx
    obtain ⟨_, _, rfl⟩ := hy
    rfl
  · intro L2 h2
    rw [key L2, key L, h2]

/-- Witness for C3: three locations, against three others with different names. -/
theorem expandLocations_tag_name_independent_witness :
    (expandLocations [⟨ascii "eu-west", []⟩, ⟨ascii "ap-south", []⟩, ⟨ascii "sa-east", []⟩]
        (ascii "R0VU")).map (fun l => l.HMAC)
      = (expandLocations [⟨ascii "us-east", []⟩, ⟨ascii "us-west", []⟩, ⟨ascii "us-south", []⟩]
        (ascii "R0VU")).map (fun l => l.HMAC) :=
  (expandLocations_tag_name_independent
      [⟨ascii "us-east", []⟩, ⟨ascii "us-west", []⟩, ⟨ascii "us-south", []⟩] (ascii "R0VU")).2.2
    [⟨ascii "eu-west", []⟩, ⟨ascii "ap-south", []⟩, ⟨ascii "sa-east", []⟩] rfl

/-- C4: flattening the locations expanded from a declared list `L` over the encoded
text gives a list of the same length (empty for an empty `L`), whose entries carry the
names of `L` in the same order and, each, the tag freshly computed from the text; the
hmac values supplied in `L` play no part. -/
theorem flatten_expand_locations (L : List LocationConfig) (b : GoString) :
    (flattenLocations (expandLocations L (base64.EncodeToString b))).length = L.length ∧
    flattenLocations (expandLocations [] (base64.EncodeToString b)) = [] ∧
    (flattenLocations (expandLocations L (base64.EncodeToString b))).map (fun l => l.name)
      = L.map (fun l => l.name) ∧
    flattenLocations (expandLocations L (base64.EncodeToString b))
      = L.map (fun l => ⟨l.name,
          hex.EncodeToString (hmacSHA256 (ascii "password123") (base64.EncodeToString b))⟩) ∧
    (∀ L2 : List LocationConfig, L2.map (fun l => l.name) = L.map (fun l => l.name) →
      flattenLocations (expandLocations L2 (base64.EncodeToString b))
        = flattenLocations (expandLocations L (base64.EncodeToString b))) := by
  have key : ∀ M : List LocationConfig,
      flattenLocations (expandLocations M (base64.EncodeToString b))
        = (M.map (fun l => l.name)).map (fun n => ⟨n,
            hex.EncodeToString (hmacSHA256 (ascii "password123") (base64.EncodeToString b))⟩) := by
    intro M
    rw [expandLocations_eq, flattenLocations, List.map_map, List.map_map]
    rfl
  refine ⟨?_, rfl, ?_, ?_, ?_⟩
  · rw [key L, List.length_map, List.length_map]
  · rw [key L, List.map_map]
    induction L with
    | nil => rfl
    | cons a L ih => simp
  · rw [key L, List.map_map]
    rfl
  · intro L2 h2
    rw [key L2, key L, h2]

/-- Witness for C4: the same two names declared with different hmac values. -/
theorem flatten_expand_locations_witness :
    flattenLocations (expandLocations
        [⟨ascii "us-east", ascii "x"⟩, ⟨ascii "eu-west", ascii "y"⟩]
        (base64.EncodeToString (ascii "GET")))
      = flattenLocations (expandLocations
        [⟨ascii "us-east", []⟩, ⟨ascii "eu-west", ascii "0000"⟩]
        (base64.EncodeToString (ascii "GET"))) :=
  (flatten_expand_locations [⟨ascii "us-east", []⟩, ⟨ascii "eu-west", ascii "0000"⟩]
      (ascii "GET")).2.2.2.2
    [⟨ascii "us-east", ascii "x"⟩, ⟨ascii "eu-west", ascii "y"⟩] rfl

/-- C5: the encoding used by `buildSyntheticsMonitorScriptStruct` is total and
reversible: the standard decoder succeeds on the `Text` of the script built and returns
exactly the declared text; hence different texts give different encodings. -/
theorem build_text_decodes (d : ResourceData) :
    (buildSyntheticsMonitorScriptStruct d).Text = base64.EncodeToString d.text ∧
    base64.DecodeString (buildSyntheticsMonitorScriptStruct d).Text = some d.text ∧
    (∀ d2 : ResourceData, d.text ≠ d2.text →
      (buildSyntheticsMonitorScriptStruct d).Text
        ≠ (buildSyntheticsMonitorScriptStruct d2).Text) := by
  refine ⟨rfl, base64.DecodeString_EncodeToString d.text, ?_⟩
  intro d2 hne heq
  exact hne (base64.EncodeToString_injective _ _ heq)

/-- Witness for C5: the example text against the one-byte text `a`. -/
theorem build_text_decodes_witness :
    exampleData.text ≠ smallData.text ∧
    (buildSyntheticsMonitorScriptStruct exampleData).Text
      ≠ (buildSyntheticsMonitorScriptStruct smallData).Text :=
  ⟨by decide, (build_text_decodes exampleData).2.2 smallData (by decide)⟩

/-- C6: with a single declared location, the first remote call Create makes submits,
under the declared monitor id, a script whose body is the standard base64 encoding of
the declared text and which has exactly one location, with the declared name and a tag
of exactly 64 characters, each a lowercase hex digit, whatever the text. -/
theorem create_submits_signed_script {σ : Type} (client : Synthetics σ)
    (chk : List LocationConfig → Option Error) (d : ResourceData) (w : World σ)
    (l : LocationConfig) (h : d.locations = [l]) :
    ∃ (tag : GoString) (rest : List Call),
      (resourceNewRelicSyntheticsMonitorScriptCreate client chk d w).world.calls
        = w.calls ++ Call.UpdateMonitorScript d.monitor_id
            { Text := base64.EncodeToString d.text,
              Locations := [{ Name := l.name, HMAC := tag }] } :: rest ∧
      tag.length = 64 ∧ ∀ c ∈ tag, isHexDigit c := by
  have hb : buildSyntheticsMonitorScriptStruct d =
      ⟨base64.EncodeToString d.text, [⟨l.name, hex.EncodeToString
        (hmacSHA256 (ascii "password123") (base64.EncodeToString d.text))⟩]⟩ := by
    simp only [buildSyntheticsMonitorScriptStruct, h, expandLocations_eq, List.map]
  cases hu : (client.UpdateMonitorScript w.remote d.monitor_id
      (buildSyntheticsMonitorScriptStruct d)).1 with
  | error e =>
    refine ⟨_, [], ?_, length_tag (ascii "password123") (base64.EncodeToString d.text),
      hex.isHexDigit_of_mem_EncodeToString _⟩
    rw [Create_error client chk d w e hu, UpdateMonitorScript_calls, hb]
  | ok s =>
    refine ⟨_, [Call.GetMonitorScript d.monitor_id], ?_,
      length_tag (ascii "password123") (base64.EncodeToString d.text),
      hex.isHexDigit_of_mem_EncodeToString _⟩
    rw [Create_ok client chk d w s hu, Read_calls, UpdateMonitorScript_calls, hb]
    simp [ResourceData.SetId]

/-- Witness for C6: the scenario of the specification, text `GET https://example.com`
and the single location `us-east`. -/
theorem create_submits_signed_script_witness :
    exampleData.locations = [⟨ascii "us-east", ascii "user-supplied"⟩] ∧
    ∃ (tag : GoString) (rest : List Call),
      (resourceNewRelicSyntheticsMonitorScriptCreate storeClient acceptAll exampleData
          { remote := [], calls := [] }).world.calls
        = [] ++ Call.UpdateMonitorScript (ascii "m1")
            { Text := base64.EncodeToString (ascii "GET https://example.com"),
              Locations := [{ Name := ascii "us-east", HMAC := tag }] } :: rest ∧
      tag.length = 64 ∧ ∀ c ∈ tag, isHexDigit c :=
  ⟨rfl, create_submits_signed_script storeClient acceptAll exampleData
    { remote := [], calls := [] } ⟨ascii "us-east", ascii "user-supplied"⟩ rfl⟩

/-- C7: Read returns an error exactly when `GetMonitorScript` fails with an error other
than NotFound, or the script was fetched and storing its locations fails. On NotFound
Read returns no error and only empties the identity, the declared text and locations
staying as they were; on any other remote error Read returns exactly that error and
leaves the resource data unchanged. -/
theorem read_error_handling {σ : Type} (client : Synthetics σ)
    (chk : List LocationConfig → Option Error) (d : ResourceData) (w : World σ) :
    ((resourceNewRelicSyntheticsMonitorScriptRead client chk d w).err ≠ none ↔
      (∃ e, (client.GetMonitorScript w.remote d.id).1 = .error e ∧ e.isNotFound = false) ∨
      (∃ script, (client.GetMonitorScript w.remote d.id).1 = .ok script ∧
        chk (flattenLocations script.Locations) ≠ none)) ∧
    (∀ e, (client.GetMonitorScript w.remote d.id).1 = .error e → e.isNotFound = true →
      (resourceNewRelicSyntheticsMonitorScriptRead client chk d w).err = none ∧
      (resourceNewRelicSyntheticsMonitorScriptRead client chk d w).d.id = [] ∧
      (resourceNewRelicSyntheticsMonitorScriptRead client chk d w).d.text = d.text ∧
      (resourceNewRelicSyntheticsMonitorScriptRead client chk d w).d.locations = d.locations ∧
      (resourceNewRelicSyntheticsMonitorScriptRead client chk d w).d.monitor_id
        = d.monitor_id) ∧
    (∀ e, (client.GetMonitorScript w.remote d.id).1 = .error e → e.isNotFound = false →
      (resourceNewRelicSyntheticsMonitorScriptRead client chk d w).err = some e ∧
      (resourceNewRelicSyntheticsMonitorScriptRead client chk d w).d = d) := by
  refine ⟨?_, ?_, ?_⟩
  · cases h : (client.GetMonitorScript w.remote d.id).1 with
    | error e =>
      rw [Read_error client chk d w e h]
      by_cases hn : e.isNotFound = true <;> simp [hn]
    | ok script =>
      rw [Read_ok client chk d w script h]
      simp
  · intro e h hn
    rw [Read_error client chk d w e h]
    simp [hn, ResourceData.SetId]
  · intro e h hn
    rw [Read_error client chk d w e h]
    simp [hn]

/-- Witness for C7: a remote that reports NotFound, one that fails otherwise, and a
remote that answers with a script whose locations the writer rejects. -/
theorem read_error_handling_witness :
    ((resourceNewRelicSyntheticsMonitorScriptRead
        (failingClient (.NotFound (ascii "gone"))) acceptAll smallData emptyWorld).err = none ∧
      (resourceNewRelicSyntheticsMonitorScriptRead
        (failingClient (.NotFound (ascii "gone"))) acceptAll smallData emptyWorld).d.id = [] ∧
      (resourceNewRelicSyntheticsMonitorScriptRead
        (failingClient (.NotFound (ascii "gone"))) acceptAll smallData emptyWorld).d.text
          = smallData.text ∧
      (resourceNewRelicSyntheticsMonitorScriptRead
        (failingClient (.NotFound (ascii "gone"))) acceptAll smallData emptyWorld).d.locations
          = smallData.locations ∧
      (resourceNewRelicSyntheticsMonitorScriptRead
        (failingClient (.NotFound (ascii "gone"))) acceptAll smallData emptyWorld).d.monitor_id
          = smallData.monitor_id) ∧
    ((resourceNewRelicSyntheticsMonitorScriptRead
        (failingClient (.Other (ascii "timeout"))) acceptAll smallData emptyWorld).err
          = some (.Other (ascii "timeout")) ∧
      (resourceNewRelicSyntheticsMonitorScriptRead
        (failingClient (.Other (ascii "timeout"))) acceptAll smallData emptyWorld).d
          = smallData) ∧
    (resourceNewRelicSyntheticsMonitorScriptRead storeClient rejectAll smallData
        smallWorld).err ≠ none :=
  ⟨(read_error_handling (failingClient (.NotFound (ascii "gone"))) acceptAll smallData
      emptyWorld).2.1 (.NotFound (ascii "gone")) rfl rfl,
    (read_error_handling (failingClient (.Other (ascii "timeout"))) acceptAll smallData
      emptyWorld).2.2 (.Other (ascii "timeout")) rfl rfl,
    (read_error_handling storeClient rejectAll smallData smallWorld).1.mpr
      (Or.inr ⟨buildSyntheticsMonitorScriptStruct smallData, rfl, by decide⟩)⟩

/-- C8: when the `UpdateMonitorScript` call of Create, Update or Delete fails with an
error `e`, the operation returns exactly `e`, that call is the only remote call it
makes, and the resource data is left unchanged; so a failed Create leaves an unset
identity unset, and a failed Update or Delete leaves identity and fields as they were. -/
theorem failed_submit_propagates {σ : Type} (client : Synthetics σ)
    (chk : List LocationConfig → Option Error) (d : ResourceData) (w : World σ) (e : Error) :
    ((client.UpdateMonitorScript w.remote d.monitor_id
        (buildSyntheticsMonitorScriptStruct d)).1 = .error e →
      (resourceNewRelicSyntheticsMonitorScriptCreate client chk d w).err = some e ∧
      (resourceNewRelicSyntheticsMonitorScriptCreate client chk d w).d = d ∧
      (d.id = [] → (resourceNewRelicSyntheticsMonitorScriptCreate client chk d w).d.id = []) ∧
      (resourceNewRelicSyntheticsMonitorScriptCreate client chk d w).world.calls
        = w.calls ++ [Call.UpdateMonitorScript d.monitor_id
            (buildSyntheticsMonitorScriptStruct d)]) ∧
    ((client.UpdateMonitorScript w.remote d.id
        (buildSyntheticsMonitorScriptStruct d)).1 = .error e →
      (resourceNewRelicSyntheticsMonitorScriptUpdate client chk d w).err = some e ∧
      (resourceNewRelicSyntheticsMonitorScriptUpdate client chk d w).d = d ∧
      (resourceNewRelicSyntheticsMonitorScriptUpdate client chk d w).world.calls
        = w.calls ++ [Call.UpdateMonitorScript d.id (buildSyntheticsMonitorScriptStruct d)]) ∧
    ((client.UpdateMonitorScript w.remote d.id ⟨ascii " ", []⟩).1 = .error e →
      (resourceNewRelicSyntheticsMonitorScriptDelete client d w).err = some e ∧
      (resourceNewRelicSyntheticsMonitorScriptDelete client d w).d = d ∧
      (resourceNewRelicSyntheticsMonitorScriptDelete client d w).world.calls
        = w.calls ++ [Call.UpdateMonitorScript d.id ⟨ascii " ", []⟩]) := by
  refine ⟨?_, ?_, ?_⟩
  · intro h
    rw [Create_error client chk d w e h]
    exact ⟨rfl, rfl, fun h0 => h0, rfl⟩
  · intro h
    rw [Update_error client chk d w e h]
    exact ⟨rfl, rfl, rfl⟩
  · intro h
    rw [Delete_error client d w e h]
    exact ⟨rfl, rfl, rfl⟩

/-- Witness for C8: a remote on which every call fails with a timeout; Create on a
resource without identity, Update and Delete on one with identity `m1`. -/
theorem failed_submit_propagates_witness :
    ((resourceNewRelicSyntheticsMonitorScriptCreate (failingClient (.Other (ascii "timeout")))
        acceptAll absentData emptyWorld).err = some (.Other (ascii "timeout")) ∧
      (resourceNewRelicSyntheticsMonitorScriptCreate (failingClient (.Other (ascii "timeout")))
        acceptAll absentData emptyWorld).d = absentData ∧
      (absentData.id = [] →
        (resourceNewRelicSyntheticsMonitorScriptCreate (failingClient (.Other (ascii "timeout")))
          acceptAll absentData emptyWorld).d.id = []) ∧
      (resourceNewRelicSyntheticsMonitorScriptCreate (failingClient (.Other (ascii "timeout")))
        acceptAll absentData emptyWorld).world.calls
        = emptyWorld.calls ++ [Call.UpdateMonitorScript absentData.monitor_id
            (buildSyntheticsMonitorScriptStruct absentData)]) ∧
    ((resourceNewRelicSyntheticsMonitorScriptUpdate (failingClient (.Other (ascii "timeout")))
        acceptAll smallData emptyWorld).err = some (.Other (ascii "timeout")) ∧
      (resourceNewRelicSyntheticsMonitorScriptUpdate (failingClient (.Other (ascii "timeout")))
        acceptAll smallData emptyWorld).d = smallData ∧
      (resourceNewRelicSyntheticsMonitorScriptUpdate (failingClient (.Other (ascii "timeout")))
        acceptAll smallData emptyWorld).world.calls
        = emptyWorld.calls ++ [Call.UpdateMonitorScript smallData.id
            (buildSyntheticsMonitorScriptStruct smallData)]) ∧
    ((resourceNewRelicSyntheticsMonitorScriptDelete (failingClient (.Other (ascii "timeout")))
        smallData emptyWorld).err = some (.Other (ascii "timeout")) ∧
      (resourceNewRelicSyntheticsMonitorScriptDelete (failingClient (.Other (ascii "timeout")))
        smallData emptyWorld).d = smallData ∧
      (resourceNewRelicSyntheticsMonitorScriptDelete (failingClient (.Other (ascii "timeout")))
        smallData emptyWorld).world.calls
        = emptyWorld.calls ++ [Call.UpdateMonitorScript smallData.id ⟨ascii " ", []⟩]) :=
  ⟨(failed_submit_propagates (failingClient (.Other (ascii "timeout"))) acceptAll absentData
      emptyWorld (.Other (ascii "timeout"))).1 rfl,
    (failed_submit_propagates (failingClient (.Other (ascii "timeout"))) acceptAll smallData
      emptyWorld (.Other (ascii "timeout"))).2.1 rfl,
    (failed_submit_propagates (failingClient (.Other (ascii "timeout"))) acceptAll smallData
      emptyWorld (.Other (ascii "timeout"))).2.2 rfl⟩

/-- C9, as stated, fails: on a remote that accepts the script and then reports the
monitor as not found, the update succeeds, Create returns no error, and the identity it
leaves is empty, not the declared monitor id. -/
theorem create_identity_counterexample :
    (forgetfulClient.UpdateMonitorScript emptyWorld.remote absentData.monitor_id
        (buildSyntheticsMonitorScriptStruct absentData)).1
      = .ok (buildSyntheticsMonitorScriptStruct absentData) ∧
    (resourceNewRelicSyntheticsMonitorScriptCreate forgetfulClient acceptAll absentData
        emptyWorld).err = none ∧
    (resourceNewRelicSyntheticsMonitorScriptCreate forgetfulClient acceptAll absentData
        emptyWorld).d.id = [] ∧
    (resourceNewRelicSyntheticsMonitorScriptCreate forgetfulClient acceptAll absentData
        emptyWorld).d.id ≠ absentData.monitor_id := by
  refine ⟨rfl, by decide, by decide, by decide⟩

/-- C9, amended: when the `UpdateMonitorScript` call of Create succeeds, the script was
submitted under the declared monitor id, the identity is set to the declared monitor
id, and Create's result is the result of Read performed under that identity, which
makes one `GetMonitorScript` call under it. The identity Create leaves is the declared
monitor id unless that call reports NotFound, in which case it is empty. -/
theorem create_success {σ : Type} (client : Synthetics σ)
    (chk : List LocationConfig → Option Error) (d : ResourceData) (w : World σ)
    (s : MonitorScript)
    (h : (client.UpdateMonitorScript w.remote d.monitor_id
      (buildSyntheticsMonitorScriptStruct d)).1 = .ok s) :
    resourceNewRelicSyntheticsMonitorScriptCreate client chk d w
      = resourceNewRelicSyntheticsMonitorScriptRead client chk (d.SetId d.monitor_id)
          (World.UpdateMonitorScript client w d.monitor_id
            (buildSyntheticsMonitorScriptStruct d)).2 ∧
    (d.SetId d.monitor_id).id = d.monitor_id ∧
    (resourceNewRelicSyntheticsMonitorScriptCreate client chk d w).world.calls
      = w.calls ++ [Call.UpdateMonitorScript d.monitor_id (buildSyntheticsMonitorScriptStruct d),
          Call.GetMonitorScript d.monitor_id] ∧
    (resourceNewRelicSyntheticsMonitorScriptCreate client chk d w).d.id
      = match (client.GetMonitorScript
          (client.UpdateMonitorScript w.remote d.monitor_id
            (buildSyntheticsMonitorScriptStruct d)).2 d.monitor_id).1 with
        | .error e => if e.isNotFound then [] else d.monitor_id
        | .ok _ => d.monitor_id := by
  refine ⟨Create_ok client chk d w s h, rfl, ?_, ?_⟩
  · rw [Create_ok client chk d w s h, Read_calls, UpdateMonitorScript_calls]
    simp [ResourceData.SetId]
  · rw [Create_ok client chk d w s h, Read_id]
    rfl

/-- Witness for C9 amended: Create on a remote that stores what it is sent. -/
theorem create_success_witness :
    (resourceNewRelicSyntheticsMonitorScriptCreate storeClient acceptAll absentData
        { remote := [], calls := [] }).world.calls
      = [] ++ [Call.UpdateMonitorScript absentData.monitor_id
          (buildSyntheticsMonitorScriptStruct absentData),
          Call.GetMonitorScript absentData.monitor_id] :=
  (create_success storeClient acceptAll absentData { remote := [], calls := [] }
    (buildSyntheticsMonitorScriptStruct absentData) rfl).2.2.1

/-- C10, as stated, fails: Delete on a present resource, against a remote that accepts
the blank script, returns no error and leaves the identity `m1` in place. -/
theorem delete_identity_counterexample :
    smallData.id ≠ [] ∧
    (storeClient.UpdateMonitorScript smallWorld.remote smallData.id ⟨ascii " ", []⟩).1
      = .ok ⟨ascii " ", []⟩ ∧
    (resourceNewRelicSyntheticsMonitorScriptDelete storeClient smallData smallWorld).err = none ∧
    (resourceNewRelicSyntheticsMonitorScriptDelete storeClient smallData smallWorld).d.id
      = ascii "m1" ∧
    (resourceNewRelicSyntheticsMonitorScriptDelete storeClient smallData smallWorld).d.id
      ≠ [] := by
  refine ⟨by decide, rfl, by decide, by decide, by decide⟩

/-- C10, amended: Delete makes one remote call, submitting under the resource's identity
a script whose body is the single space and which has no locations; when that call
succeeds Delete returns no error and leaves the resource data, identity included, as
it was. -/
theorem delete_submits_blank {σ : Type} (client : Synthetics σ) (d : ResourceData)
    (w : World σ) (s : MonitorScript)
    (h : (client.UpdateMonitorScript w.remote d.id ⟨[32], []⟩).1 = .ok s) :
    (resourceNewRelicSyntheticsMonitorScriptDelete client d w).world.calls
      = w.calls ++ [Call.UpdateMonitorScript d.id ⟨[32], []⟩] ∧
    (resourceNewRelicSyntheticsMonitorScriptDelete client d w).err = none ∧
    (resourceNewRelicSyntheticsMonitorScriptDelete client d w).d = d := by
  have hs : ascii " " = [32] := by decide
  rw [← hs] at h ⊢
  rw [Delete_ok client d w s h]
  exact ⟨rfl, rfl, rfl⟩

/-- Witness for C10 amended: Delete of the resource `m1` on a remote that stores what
it is sent. -/
theorem delete_submits_blank_witness :
    (resourceNewRelicSyntheticsMonitorScriptDelete storeClient smallData smallWorld).world.calls
      = smallWorld.calls ++ [Call.UpdateMonitorScript smallData.id ⟨[32], []⟩] ∧
    (resourceNewRelicSyntheticsMonitorScriptDelete storeClient smallData smallWorld).err = none ∧
    (resourceNewRelicSyntheticsMonitorScriptDelete storeClient smallData smallWorld).d
      = smallData :=
  delete_submits_blank storeClient smallData smallWorld ⟨[32], []⟩ rfl

end NewRelic
